import Mathlib

/-!
Verification of the core of the icon-service repository: the P-Rep / Term
storage layer (iconservice/prep/storage.py), the SCORE deploy engine
(iconservice/deploy/icon_score_deploy_engine.py) and the rollback manager
(iconservice/rollback/rollback_manager.py), shallowly embedded in Lean.

Python dictionaries and key-value databases are modelled as association
lists, in-place mutation as explicit state passing, and raised exceptions
as Except / Option error results.  External collaborators that are not part
of the repository slice (MsgPackForDB, the WAL reader, the score mapper,
the type converter, POSIX filesystem calls) are modelled from the spec, as
marked in the individual doc comments.
-/

set_option autoImplicit false

namespace IconService

/-! ## Byte strings and msgpack values (prep storage data model) -/

/-- Bytes are modelled as lists of naturals (one per byte, unconstrained). -/
abbrev Bytes := List Nat

/-- An address body is a byte string (20 bytes in production, unconstrained here). -/
abbrev Address := List Nat

/-- Modelled from the spec: MsgPackForDB (external library) serializes an
ordered list of fields; only invertibility and non-emptiness of the encoding
matter to the storage layer, so values are kept structured.  A stored blob is
a `List MP`. -/
inductive MP where
  | nat (n : Nat)
  | bytes (bs : Bytes)
  | addrList (xs : List Address)
deriving DecidableEq

/-- A key-value database (one column of the ContextDatabase) as an
association list; a put shadows older entries, a get returns the newest. -/
abbrev PrepDB := List (Bytes × List MP)

/-- Point read of the database: newest entry for the key, if any. -/
def dbGet : PrepDB → Bytes → Option (List MP)
  | [], _ => none
  | (k, v) :: rest, key => if k = key then some v else dbGet rest key

/-- Point write of the database (overwrite modelled by shadowing). -/
def dbPut (db : PrepDB) (key : Bytes) (value : List MP) : PrepDB :=
  (key, value) :: db

/-- The byte string b of the storage key namespace, ASCII of "prep"
(Storage.PREFIX in prep/storage.py). -/
def prepTag : Bytes := [112, 114, 101, 112]

/-- Storage key of the previous term: PREFIX + b"term0". -/
def term0Key : Bytes := prepTag ++ [116, 101, 114, 109, 48]

/-- Storage key of the current term: PREFIX + b"term1". -/
def term1Key : Bytes := prepTag ++ [116, 101, 114, 109, 49]

/-! ## Term (prep/data/term.py is outside the source slice) -/

/-- Modelled from the spec: a Term snapshot is {sequence number, start height,
end height, ordered validator set, governance variables in effect}; the data
class itself (prep/data) is not under src/. -/
structure Term where
  sequence : Nat
  startHeight : Nat
  endHeight : Nat
  mainPReps : List Address
  irep : Nat
deriving DecidableEq

/-- Modelled from the spec: Term.to_list, the ordered list-of-fields encoding
of a term (prep/data is not under src/). -/
def Term.toList (t : Term) : List MP :=
  [.nat t.sequence, .nat t.startHeight, .nat t.endHeight,
   .addrList t.mainPReps, .nat t.irep]

/-- Modelled from the spec: Term.from_list, the inverse decoding; a blob that
is not a valid term encoding yields none (prep/data is not under src/). -/
def Term.fromList : List MP → Option Term
  | [.nat seq, .nat sh, .nat eh, .addrList ps, .nat ir] =>
      some ⟨seq, sh, eh, ps, ir⟩
  | _ => none

/-! ## PRep record (prep/data/prep.py is outside the source slice) -/

/-- Modelled from the spec: a P-Rep record carries registration metadata
(public key, irep value, irep-update height), productivity stats and status,
keyed by its address (prep/data is not under src/). -/
structure PRep where
  address : Address
  publicKey : Bytes
  irep : Nat
  irepBlockHeight : Nat
  totalBlocks : Nat
  validatedBlocks : Nat
  status : Nat
deriving DecidableEq

/-- Modelled from the spec: the schema version chosen for the current protocol
revision ("`put` serializes using the schema version appropriate to the
current protocol revision"); any supported revision maps to a supported
version. -/
def schemaVersion (revision : Nat) : Nat :=
  if 5 ≤ revision then 1 else 0

/-- Modelled from the spec: PRep.make_key, the storage key of a P-Rep record,
a fixed record marker byte 0x00 followed by the address body, inside the prep
namespace (prep/data is not under src/). -/
def PRep.makeKey (address : Address) : Bytes :=
  prepTag ++ 0 :: address

/-- Modelled from the spec: PRep.to_bytes(revision), the versioned ordered
list-of-fields encoding (prep/data is not under src/). -/
def PRep.toBytes (revision : Nat) (p : PRep) : List MP :=
  [.nat (schemaVersion revision), .bytes p.address, .bytes p.publicKey,
   .nat p.irep, .nat p.irepBlockHeight, .nat p.totalBlocks,
   .nat p.validatedBlocks, .nat p.status]

/-- Modelled from the spec: PRep.from_bytes; decodes every supported schema
version, a version mismatch is fatal (none) rather than silently ignored
(prep/data is not under src/). -/
def PRep.fromBytes : List MP → Option PRep
  | [.nat v, .bytes a, .bytes pk, .nat ir, .nat ih, .nat tb, .nat vb, .nat st] =>
      if v ≤ 1 then some ⟨a, pk, ir, ih, tb, vb, st⟩ else none
  | _ => none

/-! ## prep/storage.py operations -/

/-- Errors raised by the prep storage layer: InvalidParamsException, a
decoding failure inside PRep.from_bytes, and a failed assert. -/
inductive StorageErr where
  | invalidParams (msg : String)
  | decodeError
  | assertionFailed
deriving DecidableEq

/-- Storage.put_prep: key from the record address, value serialized with the
schema version of the current revision. -/
def putPRep (db : PrepDB) (revision : Nat) (prep : PRep) : PrepDB :=
  dbPut db (PRep.makeKey prep.address) (PRep.toBytes revision prep)

/-- Storage.get_prep: raises InvalidParamsException when the key is absent,
decodes otherwise and asserts the stored address equals the requested one. -/
def getPRep (db : PrepDB) (address : Address) : Except StorageErr PRep :=
  match dbGet db (PRep.makeKey address) with
  | none => .error (.invalidParams "P-Rep not found")
  | some value =>
      match PRep.fromBytes value with
      | none => .error .decodeError
      | some prep =>
          if address = prep.address then .ok prep else .error .assertionFailed

/-- Storage._get_term: a missing or empty value decodes to none (the
truthiness test on the raw bytes), otherwise the blob is decoded. -/
def getTerm (db : PrepDB) (key : Bytes) : Option Term :=
  match dbGet db key with
  | some (x :: xs) => Term.fromList (x :: xs)
  | _ => none

/-- Storage.get_terms: reads the previous term (term0) and the current term
(term1). -/
def getTerms (db : PrepDB) : Option Term × Option Term :=
  (getTerm db term0Key, getTerm db term1Key)

/-- Storage._put_term: serialize and write one term slot. -/
def putTerm (db : PrepDB) (key : Bytes) (t : Term) : PrepDB :=
  dbPut db key (Term.toList t)

/-- Storage.put_terms: iterates the (term0, term1) key pair against the
(prev_term, term) pair and writes only the slots whose term is non-null. -/
def putTerms (db : PrepDB) (prevTerm : Option Term) (term : Option Term) : PrepDB :=
  let db1 := match prevTerm with
    | some t => putTerm db term0Key t
    | none => db
  match term with
  | some t => putTerm db1 term1Key t
  | none => db1

/-! ## Small database lemmas -/

theorem dbGet_dbPut_self (db : PrepDB) (k : Bytes) (v : List MP) :
    dbGet (dbPut db k v) k = some v := by
  simp [dbGet, dbPut]

theorem dbGet_dbPut_ne (db : PrepDB) (k k2 : Bytes) (v : List MP)
    (h : k ≠ k2) : dbGet (dbPut db k v) k2 = dbGet db k2 := by
  simp [dbGet, dbPut, h]

theorem term_fromList_toList (t : Term) : Term.fromList (Term.toList t) = some t := rfl

theorem schemaVersion_le_one (revision : Nat) : schemaVersion revision ≤ 1 := by
  unfold schemaVersion
  split <;> decide

theorem prep_fromBytes_toBytes (revision : Nat) (p : PRep) :
    PRep.fromBytes (PRep.toBytes revision p) = some p := by
  simp [PRep.toBytes, PRep.fromBytes, schemaVersion_le_one revision]

theorem getTerm_putTerm_self (db : PrepDB) (k : Bytes) (t : Term) :
    getTerm (putTerm db k t) k = some t := by
  simp [getTerm, putTerm, dbGet_dbPut_self, Term.toList, Term.fromList]

theorem getTerm_putTerm_ne (db : PrepDB) (k k2 : Bytes) (t : Term)
    (h : k ≠ k2) : getTerm (putTerm db k t) k2 = getTerm db k2 := by
  simp [getTerm, putTerm, dbGet_dbPut_ne _ _ _ _ h]

/-- Writing the current-term slot does not change what the previous-term slot
decodes to. -/
theorem getTerm_put1_at0 (db : PrepDB) (t : Term) :
    getTerm (putTerm db term1Key t) term0Key = getTerm db term0Key :=
  getTerm_putTerm_ne db term1Key term0Key t (by decide)

/-! ## Claim theorems: prep storage -/

/-- C8: putTerms(prev, cur) followed by getTerms() returns exactly
(prev, cur) when both are non-null; and putTerms(none, cur) writes only the
current-term slot, leaving whatever was stored in the previous-term slot
unchanged. -/
theorem put_terms_get_terms_pairing :
    ∀ (db : PrepDB) (p c : Term),
      getTerms (putTerms db (some p) (some c)) = (some p, some c) ∧
      dbGet (putTerms db none (some c)) term0Key = dbGet db term0Key ∧
      getTerms (putTerms db none (some c)) = ((getTerms db).1, some c) := by
  intro db p c
  refine ⟨?_, ?_, ?_⟩
  · show (getTerm (putTerm (putTerm db term0Key p) term1Key c) term0Key,
          getTerm (putTerm (putTerm db term0Key p) term1Key c) term1Key) =
        (some p, some c)
    rw [getTerm_put1_at0, getTerm_putTerm_self, getTerm_putTerm_self]
  · exact dbGet_dbPut_ne db term1Key term0Key (Term.toList c) (by decide)
  · show (getTerm (putTerm db term1Key c) term0Key,
          getTerm (putTerm db term1Key c) term1Key) =
        ((getTerms db).1, some c)
    rw [getTerm_put1_at0, getTerm_putTerm_self]
    rfl

/-- C9: putPRep followed by getPRep on the same address returns a record
equal in every field, for every record and supported protocol revision; and
getPRep on an absent address raises an invalid-parameters error rather than
returning a placeholder. -/
theorem put_prep_get_prep_roundtrip :
    (∀ (db : PrepDB) (revision : Nat) (prep : PRep),
       getPRep (putPRep db revision prep) prep.address = .ok prep) ∧
    (∀ (db : PrepDB) (address : Address),
       dbGet db (PRep.makeKey address) = none →
       getPRep db address = .error (.invalidParams "P-Rep not found")) := by
  constructor
  · intro db revision prep
    simp [getPRep, putPRep, dbGet_dbPut_self, prep_fromBytes_toBytes]
  · intro db address h
    simp [getPRep, h]

/-- A concrete P-Rep record used to instantiate the round-trip theorem. -/
def samplePRep : PRep :=
  { address := [170, 187, 1], publicKey := [4, 7], irep := 50000,
    irepBlockHeight := 77, totalBlocks := 120, validatedBlocks := 119,
    status := 0 }

/-- Witness for C9: the round trip at a concrete record and revision, and the
invalid-parameters failure on the empty database. -/
theorem put_prep_get_prep_roundtrip_witness :
    getPRep (putPRep [] 6 samplePRep) samplePRep.address = .ok samplePRep ∧
    getPRep [] [9] = .error (.invalidParams "P-Rep not found") :=
  ⟨put_prep_get_prep_roundtrip.1 [] 6 samplePRep,
   put_prep_get_prep_roundtrip.2 [] [9] rfl⟩

/-! ## Deploy engine data model (deploy/icon_score_deploy_engine.py) -/

/-- The block identity carried by a context (only the height is used by the
deploy engine). -/
structure Blk where
  height : Nat
deriving DecidableEq

/-- The transaction identity carried by a context (index and origin address
are used by the deploy engine). -/
structure Tx where
  index : Nat
  origin : Address
deriving DecidableEq

/-- The message identity carried by a context (opaque to the deploy engine). -/
abbrev Msg := Nat

/-- The slice of IconScoreContext that the deploy engine reads and rewrites:
block, tx and msg identity. -/
structure Ctx where
  block : Blk
  tx : Tx
  msg : Msg
deriving DecidableEq

/-- The content entry of a deploy payload: a string before decoding, raw
bytes after the hex decoding done for application/zip. -/
inductive CVal where
  | str (s : String)
  | bytes (bs : Bytes)
deriving DecidableEq

/-- The deploy payload dict: contentType (data.get may be absent), content
and params. -/
structure DeployData where
  contentType : Option String
  content : CVal
  params : List (String × String)
deriving DecidableEq

/-- The immutable deferred task namedtuple of the deploy engine. -/
structure Task where
  block : Blk
  tx : Tx
  msg : Msg
  icon_score_address : Address
  data_type : String
  data : DeployData
deriving DecidableEq

/-- Exceptions surfaced by the deploy engine paths. -/
inductive DeployErr where
  | invalidParams (msg : String)
  | valueError (msg : String)
  | typeError (msg : String)
deriving DecidableEq

/-- Modelled from the spec: bytes.fromhex of the Python standard library;
pairs of hex digits, failing on a non-digit or an odd length. -/
def hexDigit (c : Char) : Option Nat :=
  if 48 ≤ c.toNat ∧ c.toNat ≤ 57 then some (c.toNat - 48)
  else if 97 ≤ c.toNat ∧ c.toNat ≤ 102 then some (c.toNat - 87)
  else if 65 ≤ c.toNat ∧ c.toNat ≤ 70 then some (c.toNat - 55)
  else none

/-- Modelled from the spec: bytes.fromhex, recursion over the character
list. -/
def hexDecode : List Char → Option Bytes
  | [] => some []
  | [_] => none
  | c1 :: c2 :: rest =>
      match hexDigit c1, hexDigit c2, hexDecode rest with
      | some h, some l, some bs => some ((16 * h + l) :: bs)
      | _, _, _ => none

/-- Parameter types a score installation hook can declare. -/
inductive PTy where
  | int
  | str
  | bool
  | bytes
deriving DecidableEq

/-- A type-converted parameter value. -/
inductive PVal where
  | int (n : Nat)
  | str (s : String)
  | bool (b : Bool)
  | bytes (bs : Bytes)
deriving DecidableEq

/-- A declared parameter schema of an installation hook (the annotations of
on_install). -/
abbrev Schema := List (String × PTy)

/-- Modelled from the spec: the numeric parse used by TypeConverter for int
parameters (0x-prefixed hex). -/
def hexToNat (s : String) : Nat :=
  (s.toList.drop 2).foldl (fun acc c => 16 * acc + ((hexDigit c).getD 0)) 0

/-- Modelled from the spec: TypeConverter conversion of one raw value to the
declared parameter type. -/
def convertValue (ty : PTy) (v : String) : PVal :=
  match ty with
  | .int => .int (hexToNat v)
  | .str => .str v
  | .bool => .bool (v = "0x1")
  | .bytes => .bytes ((hexDecode (v.toList.drop 2)).getD [])

/-- Modelled from the spec: TypeConverter.convert_params, type-converting the
raw payload parameters per the declared schema of the hook; parameters
without a declared type are kept as strings. -/
def convertParams (schema : Schema) (params : List (String × String)) :
    List (String × PVal) :=
  params.map (fun kv =>
    match List.lookup kv.1 schema with
    | some ty => (kv.1, convertValue ty kv.2)
    | none => (kv.1, .str kv.2))

/-- Modelled from the spec: the external score world seen by the deploy
engine at commit time — the declared annotations of each score installation
hook (TypeConverter.make_annotations_from_method) and the behavior of the
hook itself (none: returns normally; some msg: raises). -/
structure ScoreWorld where
  schemaOf : Address → Schema
  hookResult : Address → List (String × PVal) → Option String

/-- Observable side effects of commit: mapper eviction, filesystem actions,
the owner write, the installation-hook call, and exception log lines. -/
inductive Event where
  | deleteIconScore (addr : Address)
  | makedirs (p : String)
  | symlink (src : String) (dst : String)
  | putScoreOwner (addr : Address) (owner : Address)
  | hookCall (addr : Address) (params : List (String × PVal))
  | logException (msg : String)
deriving DecidableEq

/-- The mutable state of one IconScoreDeployEngine together with its
collaborating stores: the supported data types, the deferred task queue, the
set of addresses that own a score database (IconScoreInfoMapper), the score
owner records (IcxStorage) and the thread-local context stack
(ContextContainer). -/
structure EngineState where
  scoreRootPath : String
  supportDataTypes : List String
  deferredTasks : List Task
  dbs : List Address
  owners : List (Address × Address)
  contextStack : List Ctx
deriving DecidableEq

/-- IconScoreDeployEngine.is_data_type_supported: membership in the
supported-data-type list. -/
def isDataTypeSupported (st : EngineState) (dataType : String) : Bool :=
  st.supportDataTypes.contains dataType

/-- IconScoreDeployEngine._put_deferred_task: enqueue an immutable task
capturing the block, tx and msg identity of the context. -/
def putDeferredTask (ctx : Ctx) (st : EngineState) (addr : Address)
    (dataType : String) (data : DeployData) : EngineState :=
  { st with deferredTasks :=
      st.deferredTasks ++ [⟨ctx.block, ctx.tx, ctx.msg, addr, dataType, data⟩] }

/-- The message of the invalid-contentType error, built from the rejected
content type. -/
def contentTypeErrMsg (ct : Option String) : String :=
  "Invalid contentType: " ++ (match ct with | some s => s | none => "None")

/-- IconScoreDeployEngine._deploy_on_invoke: validate the content type,
hex-decode application/zip content (dropping the first two characters), then
enqueue; an exception leaves the state as it was, since every raise happens
before the enqueue. -/
def deployOnInvoke (ctx : Ctx) (st : EngineState) (addr : Address)
    (dataType : String) (data : DeployData) : Option DeployErr × EngineState :=
  let ct := data.contentType
  if ct = some "application/tbears" then
    (none, putDeferredTask ctx st addr dataType data)
  else if ct = some "application/zip" then
    match data.content with
    | .str s =>
        match hexDecode (s.toList.drop 2) with
        | some bs =>
            (none, putDeferredTask ctx st addr dataType
              { data with content := .bytes bs })
        | none => (some (.valueError "non-hexadecimal content"), st)
    | .bytes _ => (some (.typeError "fromhex expects str"), st)
  else
    (some (.invalidParams (contentTypeErrMsg ct)), st)

/-- IconScoreDeployEngine.invoke: reject an unsupported data type, then
delegate to the deploy-on-invoke validation and enqueue. -/
def invoke (ctx : Ctx) (st : EngineState) (addr : Address)
    (dataType : String) (data : DeployData) : Option DeployErr × EngineState :=
  if isDataTypeSupported st dataType then
    deployOnInvoke ctx st addr dataType data
  else
    (some (.invalidParams ("Invalid dataType: " ++ dataType)), st)

/-! ## Deploy engine commit path -/

/-- Modelled from the spec: ContextContainer._put_context of
iconscore/icon_score_context.py (not under src/); per the spec scoped
acquisition pushes onto the thread-local context stack, as _push_context of
iconscore/context/context.py does. -/
def putContext (stack : List Ctx) (ctx : Ctx) : List Ctx :=
  stack ++ [ctx]

/-- Modelled from the spec: ContextContainer._delete_context of
iconscore/icon_score_context.py (not under src/); per the spec the
guaranteed-release pops the thread-local context stack, as _pop_context of
iconscore/context/context.py does.  The FatalException raised on an empty
stack is unreachable from the deploy engine, which always pushes first. -/
def deleteContext (stack : List Ctx) : List Ctx :=
  stack.dropLast

/-- Hex digits of one byte, lowercase, as Address.body.hex() renders them. -/
def byteToHex (b : Nat) : String :=
  let digit := fun n => if n < 10 then Char.ofNat (48 + n) else Char.ofNat (87 + n)
  String.mk [digit (b / 16 % 16), digit (b % 16)]

/-- Lowercase hex rendering of an address body
(icon_score_address.body.hex()). -/
def addrHex (a : Address) : String :=
  String.join (a.map byteToHex)

/-- The string content of a payload content value (the symlink source of a
tbears install is always a string). -/
def contentStr : CVal → String
  | .str s => s
  | .bytes _ => ""

/-- IconScoreDeployEngine._call_on_init_of_score: build the annotations of
the hook, type-convert the raw params, push the context, call the hook, log
any exception it raises, and unconditionally pop the context afterwards. -/
def callOnInitOfScore (world : ScoreWorld) (ctx : Ctx) (st : EngineState)
    (addr : Address) (params : List (String × String)) :
    EngineState × List Event :=
  let conv := convertParams (world.schemaOf addr) params
  let st1 := { st with contextStack := putContext st.contextStack ctx }
  let errEvs : List Event :=
    match world.hookResult addr conv with
    | none => []
    | some msg => [.logException msg]
  let st2 := { st1 with contextStack := deleteContext st1.contextStack }
  (st2, .hookCall addr conv :: errEvs)

/-- IconScoreDeployEngine._install_on_commit: for application/tbears content,
evict the mapped score instance, make the per-address directory and create
the height_txindex symlink (a pre-existing link at that exact name is
tolerated); record the score owner; then, only when no database existed for
the address, create it (get_icon_score) and call the installation hook. -/
def installOnCommit (world : ScoreWorld) (ctx : Ctx) (st : EngineState)
    (addr : Address) (data : DeployData) : EngineState × List Event :=
  let params := data.params
  let fsEvs : List Event :=
    if data.contentType = some "application/tbears" then
      [.deleteIconScore addr,
       .makedirs (st.scoreRootPath ++ "/" ++ addrHex addr),
       .symlink (contentStr data.content)
         (st.scoreRootPath ++ "/" ++ addrHex addr ++ "/" ++
          toString ctx.block.height ++ "_" ++ toString ctx.tx.index)]
    else []
  let st1 := { st with owners := (addr, ctx.tx.origin) :: st.owners }
  let dbExist := addr ∈ st1.dbs
  let st2 := { st1 with dbs := if dbExist then st1.dbs else st1.dbs ++ [addr] }
  if dbExist then
    (st2, fsEvs ++ [.putScoreOwner addr ctx.tx.origin])
  else
    let r := callOnInitOfScore world ctx st2 addr params
    (r.1, fsEvs ++ [.putScoreOwner addr ctx.tx.origin] ++ r.2)

/-- The message of the NotImplementedError raised by
IconScoreDeployEngine._update_on_commit. -/
def updateNotImplementedMsg : String :=
  "NotImplementedError: Score update is not implemented"

/-- One iteration of the commit loop before its exception handler: restore
the task identity into the context, then dispatch on the data type; update
raises NotImplementedError, an invalid type was already filtered in invoke
and does nothing. -/
def dispatchTask (world : ScoreWorld) (st : EngineState) (task : Task) :
    Except String (EngineState × List Event) :=
  let ctx : Ctx := ⟨task.block, task.tx, task.msg⟩
  if task.data_type = "install" then
    .ok (installOnCommit world ctx st task.icon_score_address task.data)
  else if task.data_type = "update" then
    .error updateNotImplementedMsg
  else
    .ok (st, [])

/-- One iteration of the commit loop with its per-task exception handler:
any exception is logged (Logger.exception) and swallowed, and the loop moves
on to the next task. -/
def commitStep (world : ScoreWorld)
    (acc : EngineState × List (Task × List Event)) (task : Task) :
    EngineState × List (Task × List Event) :=
  match dispatchTask world acc.1 task with
  | .ok r => (r.1, acc.2 ++ [(task, r.2)])
  | .error e => (acc.1, acc.2 ++ [(task, [.logException e])])

/-- IconScoreDeployEngine.commit: iterate over the deferred tasks in enqueue
order, then clear the queue unconditionally.  The result pairs the final
state with the per-task processing trace. -/
def commit (world : ScoreWorld) (st : EngineState) :
    EngineState × List (Task × List Event) :=
  let r := st.deferredTasks.foldl (commitStep world) (st, [])
  ({ r.1 with deferredTasks := [] }, r.2)

/-- IconScoreDeployEngine.rollback: clear the pending queue unconditionally;
nothing else is touched. -/
def rollbackEngine (st : EngineState) : EngineState :=
  { st with deferredTasks := [] }

/-- The installation-hook calls recorded in an event list. -/
def hookCallsOf (evs : List Event) : List (Address × List (String × PVal)) :=
  evs.filterMap (fun e =>
    match e with
    | .hookCall a p => some (a, p)
    | _ => none)

/-- The installation-hook calls recorded across a whole commit trace. -/
def traceHookCalls (trace : List (Task × List Event)) :
    List (Address × List (String × PVal)) :=
  hookCallsOf (trace.map Prod.snd).flatten

/-! ## Deploy engine lemmas -/

theorem commit_trace_tasks (world : ScoreWorld) :
    ∀ (tasks : List Task) (st : EngineState) (tr : List (Task × List Event)),
      ((tasks.foldl (commitStep world) (st, tr)).2).map Prod.fst =
        tr.map Prod.fst ++ tasks := by
  intro tasks
  induction tasks with
  | nil => intro st tr; simp
  | cons t ts ih =>
      intro st tr
      rw [List.foldl_cons]
      cases hd : dispatchTask world st t with
      | ok r =>
          rw [show commitStep world (st, tr) t = (r.1, tr ++ [(t, r.2)]) by
                simp [commitStep, hd]]
          rw [ih]
          simp
      | error e =>
          rw [show commitStep world (st, tr) t =
                (st, tr ++ [(t, [.logException e])]) by simp [commitStep, hd]]
          rw [ih]
          simp

/-! ## Claim theorems: invoke validation and queue invariants -/

/-- C6: invoke raises an invalid-parameters error on an unsupported data
type, and on a content type that is neither application/tbears nor
application/zip; in both failure cases the pending task queue (indeed the
whole engine state) is left unmodified. -/
theorem invoke_rejects_bad_inputs :
    ∀ (ctx : Ctx) (st : EngineState) (addr : Address) (dataType : String)
      (data : DeployData),
      (isDataTypeSupported st dataType = false →
        invoke ctx st addr dataType data =
          (some (.invalidParams ("Invalid dataType: " ++ dataType)), st)) ∧
      (isDataTypeSupported st dataType = true →
        data.contentType ≠ some "application/tbears" →
        data.contentType ≠ some "application/zip" →
        invoke ctx st addr dataType data =
          (some (.invalidParams (contentTypeErrMsg data.contentType)), st)) := by
  intro ctx st addr dataType data
  constructor
  · intro h
    simp [invoke, h]
  · intro h h1 h2
    simp [invoke, h, deployOnInvoke, h1, h2]

/-- C4: the deferred-task queue is empty immediately after every commit and
after every rollback; rollback changes nothing but the queue; and invoke
never mutates storage (score databases, owners, context stack), so the tasks
discarded by a rollback have caused no storage mutation. -/
theorem queue_empty_after_commit_and_rollback :
    ∀ (world : ScoreWorld) (st : EngineState),
      (commit world st).1.deferredTasks = [] ∧
      (rollbackEngine st).deferredTasks = [] ∧
      rollbackEngine st = { st with deferredTasks := [] } ∧
      (∀ (ctx : Ctx) (addr : Address) (dataType : String) (data : DeployData),
        (invoke ctx st addr dataType data).2.dbs = st.dbs ∧
        (invoke ctx st addr dataType data).2.owners = st.owners ∧
        (invoke ctx st addr dataType data).2.contextStack = st.contextStack) := by
  intro world st
  refine ⟨rfl, rfl, rfl, ?_⟩
  intro ctx addr dataType data
  dsimp only [invoke, deployOnInvoke]
  repeat' split
  all_goals exact ⟨rfl, rfl, rfl⟩

/-- C7: commit processes queued tasks strictly in FIFO enqueue order (the
processing trace lists exactly the queued tasks, in order, whatever each
task did or raised), clears the queue, and an update task makes its step
log the not-implemented error and leave the state untouched while the loop
continues. -/
theorem commit_fifo_and_swallows :
    ∀ (world : ScoreWorld) (st : EngineState),
      ((commit world st).2.map Prod.fst = st.deferredTasks) ∧
      ((commit world st).1.deferredTasks = []) ∧
      (∀ (st2 : EngineState) (tr : List (Task × List Event)) (task : Task),
        task.data_type = "update" →
        commitStep world (st2, tr) task =
          (st2, tr ++ [(task, [.logException updateNotImplementedMsg])])) := by
  intro world st
  refine ⟨?_, rfl, ?_⟩
  · show ((st.deferredTasks.foldl (commitStep world) (st, [])).2).map Prod.fst =
        st.deferredTasks
    rw [commit_trace_tasks]
    simp
  · intro st2 tr task h
    simp [commitStep, dispatchTask, h]

/-! ## Sample values used by the witnesses -/

/-- A sample execution context. -/
def sampleCtx : Ctx := ⟨⟨10⟩, ⟨0, [9, 9]⟩, 0⟩

/-- A sample payload with a rejected content type. -/
def sampleTextData : DeployData := ⟨some "text/plain", .str "hello", []⟩

/-- A sample tbears install payload. -/
def sampleInstallData : DeployData :=
  ⟨some "application/tbears", .str "/tmp/x", [("value", "0x2a")]⟩

/-- A sample install task at block 10, tx 0, for address aa. -/
def sampleInstallTask : Task :=
  ⟨⟨10⟩, ⟨0, [9, 9]⟩, 0, [170], "install", sampleInstallData⟩

/-- A sample update task. -/
def sampleUpdateTask : Task :=
  ⟨⟨10⟩, ⟨0, [9, 9]⟩, 0, [170], "update", sampleInstallData⟩

/-- A sample engine state with an empty queue and no databases. -/
def sampleEngineState : EngineState :=
  ⟨"score", ["install", "update"], [], [], [], []⟩

/-- A sample engine state whose queue holds an install then an update task. -/
def sampleQueuedState : EngineState :=
  { sampleEngineState with deferredTasks := [sampleInstallTask, sampleUpdateTask] }

/-- A sample score world: every hook declares one int parameter and raises. -/
def sampleWorld : ScoreWorld :=
  ⟨fun _ => [("value", PTy.int)], fun _ _ => some "boom"⟩

/-- Witness for C6: a concrete rejection of dataType deploy and of
contentType text/plain, both leaving the state untouched. -/
theorem invoke_rejects_bad_inputs_witness :
    (isDataTypeSupported sampleEngineState "deploy" = false ∧
     invoke sampleCtx sampleEngineState [170] "deploy" sampleTextData =
       (some (.invalidParams ("Invalid dataType: " ++ "deploy")),
        sampleEngineState)) ∧
    (isDataTypeSupported sampleEngineState "install" = true ∧
     invoke sampleCtx sampleEngineState [170] "install" sampleTextData =
       (some (.invalidParams (contentTypeErrMsg sampleTextData.contentType)),
        sampleEngineState)) :=
  ⟨⟨by decide,
    (invoke_rejects_bad_inputs sampleCtx sampleEngineState [170] "deploy"
      sampleTextData).1 (by decide)⟩,
   ⟨by decide,
    (invoke_rejects_bad_inputs sampleCtx sampleEngineState [170] "install"
      sampleTextData).2 (by decide) (by decide) (by decide)⟩⟩

/-- Witness for C7: the concrete queue [install, update] commits with a
trace listing exactly those two tasks in order, and the update step logs the
not-implemented error without touching the state. -/
theorem commit_fifo_and_swallows_witness :
    ((commit sampleWorld sampleQueuedState).2.map Prod.fst =
      sampleQueuedState.deferredTasks) ∧
    commitStep sampleWorld (sampleEngineState, []) sampleUpdateTask =
      (sampleEngineState,
       [(sampleUpdateTask, [.logException updateNotImplementedMsg])]) :=
  ⟨(commit_fifo_and_swallows sampleWorld sampleQueuedState).1,
   (commit_fifo_and_swallows sampleWorld sampleQueuedState).2.2
     sampleEngineState [] sampleUpdateTask rfl⟩

/-! ## Install procedure lemmas -/

theorem traceHookCalls_single (t : Task) (e : List Event) :
    traceHookCalls [(t, e)] = hookCallsOf e := by
  simp [traceHookCalls]

theorem installOnCommit_contextStack (world : ScoreWorld) (ctx : Ctx)
    (st : EngineState) (addr : Address) (data : DeployData) :
    (installOnCommit world ctx st addr data).1.contextStack = st.contextStack := by
  dsimp only [installOnCommit, callOnInitOfScore]
  split <;> simp [putContext, deleteContext, List.dropLast_concat]

theorem installOnCommit_dbs (world : ScoreWorld) (ctx : Ctx)
    (st : EngineState) (addr : Address) (data : DeployData) :
    (installOnCommit world ctx st addr data).1.dbs =
      if addr ∈ st.dbs then st.dbs else st.dbs ++ [addr] := by
  dsimp only [installOnCommit, callOnInitOfScore]
  split <;> rename_i h <;> simp [h]

theorem installOnCommit_hookCalls (world : ScoreWorld) (ctx : Ctx)
    (st : EngineState) (addr : Address) (data : DeployData) :
    hookCallsOf (installOnCommit world ctx st addr data).2 =
      if addr ∈ st.dbs then []
      else [(addr, convertParams (world.schemaOf addr) data.params)] := by
  dsimp only [installOnCommit, callOnInitOfScore]
  repeat' split
  all_goals simp_all [hookCallsOf]

theorem installOnCommit_log (world : ScoreWorld) (ctx : Ctx)
    (st : EngineState) (addr : Address) (data : DeployData) (msg : String)
    (h : addr ∉ st.dbs)
    (hr : world.hookResult addr
        (convertParams (world.schemaOf addr) data.params) = some msg) :
    Event.logException msg ∈ (installOnCommit world ctx st addr data).2 := by
  dsimp only [installOnCommit, callOnInitOfScore]
  simp only [if_neg h, hr]
  simp

/-- The reduction of commit on a queue holding exactly one install task. -/
theorem commit_single_install (world : ScoreWorld) (st : EngineState)
    (task : Task) (h1 : st.deferredTasks = [task])
    (h2 : task.data_type = "install") :
    commit world st =
      ({ (installOnCommit world ⟨task.block, task.tx, task.msg⟩ st
            task.icon_score_address task.data).1 with deferredTasks := [] },
       [(task, (installOnCommit world ⟨task.block, task.tx, task.msg⟩ st
            task.icon_score_address task.data).2)]) := by
  simp [commit, h1, commitStep, dispatchTask, h2]

/-! ## Claim theorem: at-most-once install hook -/

/-- C1: committing a single queued install task for an address with no prior
score database calls the installation hook exactly once, with the raw
parameters type-converted per the declared schema of the hook; the context
stack is restored to its prior state; a raising hook only adds a log line;
and a second commit of the same task, now that the database exists, does not
re-invoke the hook. -/
theorem install_hook_called_once :
    ∀ (world : ScoreWorld) (st : EngineState) (task : Task),
      st.deferredTasks = [task] →
      task.data_type = "install" →
      task.icon_score_address ∉ st.dbs →
      (traceHookCalls (commit world st).2 =
         [(task.icon_score_address,
           convertParams (world.schemaOf task.icon_score_address)
             task.data.params)]) ∧
      ((commit world st).1.contextStack = st.contextStack) ∧
      (∀ msg, world.hookResult task.icon_score_address
            (convertParams (world.schemaOf task.icon_score_address)
              task.data.params) = some msg →
          Event.logException msg ∈
            ((commit world st).2.map Prod.snd).flatten) ∧
      (traceHookCalls
          (commit world
            { (commit world st).1 with deferredTasks := [task] }).2 = []) := by
  intro world st task h1 h2 h3
  have hc := commit_single_install world st task h1 h2
  have hdbs : (commit world st).1.dbs =
      st.dbs ++ [task.icon_score_address] := by
    rw [hc]
    show (installOnCommit world ⟨task.block, task.tx, task.msg⟩ st
        task.icon_score_address task.data).1.dbs = _
    rw [installOnCommit_dbs, if_neg h3]
  refine ⟨?_, ?_, ?_, ?_⟩
  · rw [hc, traceHookCalls_single, installOnCommit_hookCalls, if_neg h3]
  · rw [hc]
    exact installOnCommit_contextStack world ⟨task.block, task.tx, task.msg⟩ st
      task.icon_score_address task.data
  · intro msg hr
    rw [hc]
    simpa using installOnCommit_log world ⟨task.block, task.tx, task.msg⟩ st
      task.icon_score_address task.data msg h3 hr
  · rw [commit_single_install world _ task rfl h2, traceHookCalls_single,
        installOnCommit_hookCalls]
    simp [hdbs]

/-- A sample engine state whose queue holds exactly the sample install task. -/
def sampleInstallState : EngineState :=
  { sampleEngineState with deferredTasks := [sampleInstallTask] }

/-- Witness for C1: the concrete install task at address aa with one declared
int parameter commits with exactly one hook call receiving the converted
value 42, the context stack stays empty, the raising hook is logged, and a
second commit of the same task makes no hook call. -/
theorem install_hook_called_once_witness :
    traceHookCalls (commit sampleWorld sampleInstallState).2 =
      [([170], [("value", PVal.int 42)])] ∧
    (commit sampleWorld sampleInstallState).1.contextStack = [] ∧
    Event.logException "boom" ∈
      ((commit sampleWorld sampleInstallState).2.map Prod.snd).flatten ∧
    traceHookCalls (commit sampleWorld
      { (commit sampleWorld sampleInstallState).1 with
        deferredTasks := [sampleInstallTask] }).2 = [] := by
  have h := install_hook_called_once sampleWorld sampleInstallState
    sampleInstallTask rfl rfl (by decide)
  refine ⟨?_, h.2.1, h.2.2.1 "boom" rfl, h.2.2.2⟩
  rw [h.1]
  decide

/-! ## Class-level supported-data-type list -/

/-- The class attribute initializer _SUPPORT_DATA_TYPES = [install, update]
of IconScoreDeployEngine, shared by every instance of the process. -/
def initialSupportDataTypes : List String := ["install", "update"]

/-- The Flag.ENABLE_DEPLOY_AUDIT bit. -/
def ENABLE_DEPLOY_AUDIT : Nat := 1

/-- IconScoreDeployEngine.is_flag_on: (self._flags & flag) == flag. -/
def isFlagOn (flags flag : Nat) : Bool :=
  (flags &&& flag) == flag

/-- The constructor effect of one IconScoreDeployEngine on the shared
class-level list: with the audit flag on,
self._SUPPORT_DATA_TYPES.append(audit) mutates the class attribute in
place. -/
def engineInitSharedList (shared : List String) (flags : Nat) : List String :=
  if isFlagOn flags ENABLE_DEPLOY_AUDIT then shared ++ ["audit"] else shared

/-- The shared class-level list after a sequence of engine constructions with
the given flag words, starting from the class attribute initializer. -/
def sharedListAfter (trace : List Nat) : List String :=
  trace.foldl engineInitSharedList initialSupportDataTypes

/-- IconScoreDeployEngine.is_data_type_supported as observed on one
instance: self._SUPPORT_DATA_TYPES resolves to the class attribute, so the
flags the instance itself was constructed with are irrelevant. -/
def isDataTypeSupportedInstance (shared : List String) (_instanceFlags : Nat)
    (dataType : String) : Bool :=
  shared.contains dataType

theorem mem_engineInitSharedList (shared : List String) (flags : Nat)
    (s : String) (h : s ∈ shared) : s ∈ engineInitSharedList shared flags := by
  unfold engineInitSharedList
  split <;> simp [h]

theorem mem_foldl_engineInit (s : String) :
    ∀ (trace : List Nat) (init : List String), s ∈ init →
      s ∈ trace.foldl engineInitSharedList init := by
  intro trace
  induction trace with
  | nil => intro init h; simpa using h
  | cons t ts ih =>
      intro init h
      rw [List.foldl_cons]
      exact ih _ (mem_engineInitSharedList _ _ _ h)

theorem audit_mem_foldl :
    ∀ (trace : List Nat) (init : List String),
      (∃ f ∈ trace, isFlagOn f ENABLE_DEPLOY_AUDIT = true) →
      "audit" ∈ trace.foldl engineInitSharedList init := by
  intro trace
  induction trace with
  | nil => simp
  | cons t ts ih =>
      intro init h
      rcases h with ⟨f, hf, hflag⟩
      rw [List.foldl_cons]
      rcases List.mem_cons.1 hf with heq | hmem
      · subst heq
        exact mem_foldl_engineInit _ _ _
          (by simp [engineInitSharedList, hflag])
      · exact ih _ ⟨f, hmem, hflag⟩

/-! ## Claim theorem: shared class state -/

/-- C10: the supported-data-type set is process-wide class state: after any
sequence of engine constructions in which some engine was constructed with
the ENABLE_DEPLOY_AUDIT flag, is_data_type_supported(audit) holds on every
instance in the process, whatever flags that instance itself was constructed
with and in whatever order the instances were constructed. -/
theorem audit_support_is_shared_class_state :
    ∀ (trace : List Nat) (f : Nat), f ∈ trace →
      isFlagOn f ENABLE_DEPLOY_AUDIT = true →
      ∀ (instanceFlags : Nat),
        isDataTypeSupportedInstance (sharedListAfter trace) instanceFlags
          "audit" = true := by
  intro trace f hf hflag instanceFlags
  have hmem := audit_mem_foldl trace initialSupportDataTypes ⟨f, hf, hflag⟩
  simpa [isDataTypeSupportedInstance, sharedListAfter] using hmem

/-- Witness for C10: an engine constructed without the audit flag, then one
constructed with it; the flagless instance now reports audit as supported. -/
theorem audit_support_is_shared_class_state_witness :
    ((1 : Nat) ∈ [0, 1] ∧ isFlagOn 1 ENABLE_DEPLOY_AUDIT = true) ∧
    isDataTypeSupportedInstance (sharedListAfter [0, 1]) 0 "audit" = true :=
  ⟨⟨by decide, by decide⟩,
   audit_support_is_shared_class_state [0, 1] 1 (by decide) (by decide) 0⟩

/-! ## Rollback manager data model (rollback/rollback_manager.py) -/

/-- Keys of the state and reward-calc stores. -/
abbrev RKey := String

/-- Values of the state and reward-calc stores. -/
abbrev RVal := String

/-- One mutation recorded in a WAL batch (the spec describes batches as sets
of puts and deletes). -/
inductive DBOp where
  | put (k : RKey) (v : RVal)
  | del (k : RKey)
deriving DecidableEq

/-- A key-value database as an association list (newest entry first). -/
abbrev RcDB := List (RKey × RVal)

/-- Application of one WAL mutation to a database. -/
def applyOp (db : RcDB) : DBOp → RcDB
  | .put k v => (k, v) :: db.filter (fun kv => kv.1 != k)
  | .del k => db.filter (fun kv => kv.1 != k)

/-- KeyValueDatabase.write_batch: apply a batch of mutations in order. -/
def writeBatch (db : RcDB) (ops : List DBOp) : RcDB :=
  ops.foldl applyOp db

/-- Lookup in a path-keyed directory or file map. -/
def lookupFS {α : Type} : List (String × α) → String → Option α
  | [], _ => none
  | (k, v) :: rest, key => if k = key then some v else lookupFS rest key

/-- Removal of a path from a directory or file map. -/
def removeFS {α : Type} (fs : List (String × α)) (p : String) :
    List (String × α) :=
  fs.filter (fun kv => kv.1 != p)

/-- Insertion or replacement of a path in a directory or file map. -/
def putFS {α : Type} (fs : List (String × α)) (p : String) (v : α) :
    List (String × α) :=
  (p, v) :: removeFS fs p

/-- A directory tree holding databases, keyed by path. -/
abbrev DirFS := List (String × RcDB)

/-- Modelled from the spec: the WAL backup file as WriteAheadLogReader of
database/wal.py (not under src/) exposes it — a state-flag word, the block
identity it was captured for, and replay batches identified by a batch-type
tag; log_count is the batch count and get_iterator yields the batch with
the given tag. -/
structure WALFile where
  state : Nat
  blockHeight : Int
  batches : List (Nat × List DBOp)
deriving DecidableEq

/-- WriteAheadLogReader.log_count. -/
def WALFile.logCount (w : WALFile) : Nat := w.batches.length

/-- WriteAheadLogReader.get_iterator for one batch-type tag. -/
def WALFile.getIterator (w : WALFile) (tag : Nat) : List DBOp :=
  ((w.batches.find? (fun b => b.1 == tag)).map Prod.snd).getD []

/-- Modelled from the spec: the WALDBType.STATE batch tag (database/wal.py,
not under src/). -/
def WALDBType_STATE : Nat := 0

/-- Modelled from the spec: the WALDBType.RC batch tag (database/wal.py, not
under src/). -/
def WALDBType_RC : Nat := 1

/-- Modelled from the spec: the CALC_PERIOD_END_BLOCK bit of WALBackupState
(backup_manager.py, not under src/); the state-flag bitset currently holds
this single bit. -/
def CALC_PERIOD_END_BLOCK : Nat := 1

/-- Exceptions of the rollback paths: DatabaseException, a failed assert,
and operating-system errors. -/
inductive RbErr where
  | databaseException (msg : String)
  | assertionError
  | osError (msg : String)
deriving DecidableEq

/-- RollbackManager construction parameters. -/
structure RollbackCfg where
  backupRootPath : String
  rcDataPath : String
deriving DecidableEq

/-- Modelled from the spec: get_backup_filename of backup_manager.py (not
under src/): the per-height name of the WAL backup file. -/
def getBackupFilename (blockHeight : Int) : String :=
  "block-" ++ toString blockHeight ++ ".bak"

/-- RollbackManager._get_backup_file_path. -/
def getBackupFilePath (cfg : RollbackCfg) (blockHeight : Int) : String :=
  cfg.backupRootPath ++ "/" ++ getBackupFilename blockHeight

/-- The fixed on-disk location of the current reward-calc database. -/
def currentDbPath (cfg : RollbackCfg) : String :=
  cfg.rcDataPath ++ "/current_db"

/-- The on-disk location of a standby reward-calc database. -/
def standbyDbPath (cfg : RollbackCfg) : String :=
  cfg.rcDataPath ++ "/standby_db"

/-- The on-disk location of the next-period iiss reward-calc database. -/
def iissDbPath (cfg : RollbackCfg) : String :=
  cfg.rcDataPath ++ "/iiss_db"

/-- Modelled from the spec: RewardCalcStorage.scan_rc_db (not under src/):
the paths of the current, standby and iiss databases, with the empty string
for each one absent on disk — the caller tests existence by a positive path
length, and the missing-both decision-table row must be reachable, so an
absent database must scan to the empty string. -/
def scanRcDb (cfg : RollbackCfg) (fs : DirFS) : String × String × String :=
  ((if (lookupFS fs (currentDbPath cfg)).isSome then currentDbPath cfg else ""),
   (if (lookupFS fs (standbyDbPath cfg)).isSome then standbyDbPath cfg else ""),
   (if (lookupFS fs (iissDbPath cfg)).isSome then iissDbPath cfg else ""))

/-- Modelled from the spec: POSIX rename(2) as exposed by os.rename — moves
the directory tree at src onto dst; an empty source or destination path
names no directory entry and fails with ENOENT. -/
def osRename (fs : DirFS) (src dst : String) : Except RbErr DirFS :=
  if dst = "" then .error (.osError "ENOENT")
  else
    match lookupFS fs src with
    | none => .error (.osError "ENOENT")
    | some db => .ok (putFS (removeFS fs src) dst db)

/-- Modelled from the spec: shutil.rmtree — removes the directory tree,
failing when the path does not exist. -/
def shutilRmtree (fs : DirFS) (p : String) : Except RbErr DirFS :=
  match lookupFS fs p with
  | none => .error (.osError "ENOENT")
  | some _ => .ok (removeFS fs p)

/-- RollbackManager._rename_rc_db: logs around os.rename. -/
def renameRcDb (fs : DirFS) (src dst : String) : Except RbErr DirFS :=
  osRename fs src dst

/-- Modelled from the spec: make_block_produce_info_key of
iiss/reward_calc/msg_data.py (not under src/): the key of the speculative
block-production-info record for one height. -/
def makeBlockProduceInfoKey (blockHeight : Int) : RKey :=
  "bpi/" ++ toString blockHeight

/-- RollbackManager._remove_block_produce_info: open the database at the
path without creating it (KeyValueDatabase.from_path with create_if_missing
false fails on a missing path), delete the record, close. -/
def removeBlockProduceInfo (fs : DirFS) (dbPath : String)
    (blockHeight : Int) : Except RbErr DirFS :=
  match lookupFS fs dbPath with
  | none => .error (.osError "database not found")
  | some db =>
      .ok (putFS fs dbPath (applyOp db (.del (makeBlockProduceInfoKey blockHeight))))

/-- RollbackManager._rollback_rc_db_on_end_block: scan the reward-calc
directory, assert the standby database is absent, resolve the current/iiss
decision table exactly as the source branches do, then remove the
block-production-info record from the scanned current path. -/
def rollbackRcDbOnEndBlock (cfg : RollbackCfg) (fs : DirFS)
    (blockHeight : Int) : Except RbErr DirFS :=
  let scan := scanRcDb cfg fs
  let currentRcDbPath := scan.1
  let standbyRcDbPath := scan.2.1
  let iissRcDbPath := scan.2.2
  if standbyRcDbPath ≠ "" then .error .assertionError
  else do
    let fs1 ←
      if 0 < currentRcDbPath.length then
        if 0 < iissRcDbPath.length then do
          let fs2 ← shutilRmtree fs currentRcDbPath
          renameRcDb fs2 iissRcDbPath currentRcDbPath
        else pure fs
      else
        if 0 < iissRcDbPath.length then
          renameRcDb fs iissRcDbPath currentRcDbPath
        else .error (.databaseException "RC DB not found")
    removeBlockProduceInfo fs1 currentRcDbPath blockHeight

/-- RollbackManager._rollback_rc_db: the period-boundary procedure when the
target ends a calculation period; otherwise open or create the current
database (Modelled from the spec: RewardCalcStorage.create_current_db, not
under src/), apply the reward-calc batch and close. -/
def rollbackRcDb (cfg : RollbackCfg) (fs : DirFS) (w : WALFile)
    (isCalcPeriodEndBlock : Bool) : Except RbErr DirFS :=
  if isCalcPeriodEndBlock then
    rollbackRcDbOnEndBlock cfg fs w.blockHeight
  else
    let db := (lookupFS fs (currentDbPath cfg)).getD []
    .ok (putFS fs (currentDbPath cfg)
      (writeBatch db (w.getIterator WALDBType_RC)))

/-- RollbackManager._rollback_state_db: apply the state batch to the live
state store. -/
def rollbackStateDb (w : WALFile) (icxDb : RcDB) : RcDB :=
  writeBatch icxDb (w.getIterator WALDBType_STATE)

/-- Modelled from the spec: os.remove — deletes the file, FileNotFoundError
when absent. -/
def osRemove (files : List (String × WALFile)) (p : String) :
    Except RbErr (List (String × WALFile)) :=
  match lookupFS files p with
  | none => .error (.osError "FileNotFoundError")
  | some _ => .ok (removeFS files p)

/-- RollbackManager._remove_backup_file: a missing file is ignored and any
other deletion error is logged and swallowed, so the call always returns. -/
def removeBackupFile (files : List (String × WALFile)) (p : String) :
    List (String × WALFile) :=
  match osRemove files p with
  | .ok files2 => files2
  | .error _ => files

/-- The filesystem and the stores the rollback manager can reach: the backup
directory, the reward-calc directory tree and the live state store. -/
structure RollbackWorld where
  backupFiles : List (String × WALFile)
  rcFs : DirFS
  stateDb : RcDB
deriving DecidableEq

/-- Filesystem accesses made by RollbackManager.run, reads included. -/
inductive RbEvent where
  | isFile (p : String)
  | openReader (p : String)
  | replayRc
  | replayState
  | removeFile (p : String)
deriving DecidableEq

/-- RollbackManager.run: a negative target or a missing backup file returns
the (-1, false) sentinel; otherwise the WAL is opened, the end-block flag
decoded, the embedded height asserted against the target, both stores are
replayed only when the log holds exactly two batches, the backup file is
removed, and (target height, end-block flag) is returned. -/
def run (cfg : RollbackCfg) (world : RollbackWorld) (blockHeight : Int) :
    Except RbErr ((Int × Bool) × RollbackWorld × List RbEvent) :=
  if blockHeight < 0 then .ok ((-1, false), world, [])
  else
    let path := getBackupFilePath cfg blockHeight
    match lookupFS world.backupFiles path with
    | none => .ok ((-1, false), world, [.isFile path])
    | some w =>
        let isCalcPeriodEndBlock := (w.state &&& CALC_PERIOD_END_BLOCK) != 0
        if w.blockHeight ≠ blockHeight then .error .assertionError
        else do
          let (rcFs2, stateDb2, evs) ←
            if w.logCount = 2 then do
              let rcFs2 ← rollbackRcDb cfg world.rcFs w isCalcPeriodEndBlock
              pure (rcFs2, rollbackStateDb w world.stateDb,
                    [RbEvent.replayRc, RbEvent.replayState])
            else pure (world.rcFs, world.stateDb, [])
          let files2 := removeBackupFile world.backupFiles path
          pure ((blockHeight, isCalcPeriodEndBlock),
                ⟨files2, rcFs2, stateDb2⟩,
                [.isFile path, .openReader path] ++ evs ++ [.removeFile path])

/-! ## Claim theorems: rollback manager -/

/-- C3: a negative target height returns the (-1, false) sentinel with no
filesystem access at all; a non-negative target with no backup file returns
(-1, false) after only the existence probe, with every store and file
untouched. -/
theorem run_sentinel_cases :
    ∀ (cfg : RollbackCfg) (world : RollbackWorld) (blockHeight : Int),
      (blockHeight < 0 →
        run cfg world blockHeight = .ok ((-1, false), world, [])) ∧
      (0 ≤ blockHeight →
        lookupFS world.backupFiles (getBackupFilePath cfg blockHeight) = none →
        run cfg world blockHeight =
          .ok ((-1, false), world,
               [.isFile (getBackupFilePath cfg blockHeight)])) := by
  intro cfg world blockHeight
  constructor
  · intro h
    simp [run, h]
  · intro h h2
    simp [run, not_lt.mpr h, h2]

/-- A sample rollback manager configuration. -/
def sampleCfg : RollbackCfg := ⟨"backup", "rc"⟩

/-- A sample world with no backup files. -/
def emptyWorld : RollbackWorld := ⟨[], [("rc/current_db", [])], [("x", "y")]⟩

/-- Witness for C3: the sentinel at target -1 with no filesystem events, and
the sentinel at target 5 with only the existence probe. -/
theorem run_sentinel_cases_witness :
    run sampleCfg emptyWorld (-1) = .ok ((-1, false), emptyWorld, []) ∧
    run sampleCfg emptyWorld 5 =
      .ok ((-1, false), emptyWorld,
           [.isFile (getBackupFilePath sampleCfg 5)]) :=
  ⟨(run_sentinel_cases sampleCfg emptyWorld (-1)).1 (by decide),
   (run_sentinel_cases sampleCfg emptyWorld 5).2 (by decide) rfl⟩

/-- C5: a backup whose log holds a batch count other than two replays
nothing into either store, still deletes the backup file, and returns
(target height, end-block flag) rather than the (-1, false) sentinel. -/
theorem run_bad_batch_count :
    ∀ (cfg : RollbackCfg) (world : RollbackWorld) (blockHeight : Int)
      (w : WALFile),
      0 ≤ blockHeight →
      lookupFS world.backupFiles (getBackupFilePath cfg blockHeight) = some w →
      w.blockHeight = blockHeight →
      w.logCount ≠ 2 →
      run cfg world blockHeight =
        .ok ((blockHeight, (w.state &&& CALC_PERIOD_END_BLOCK) != 0),
             ⟨removeFS world.backupFiles (getBackupFilePath cfg blockHeight),
              world.rcFs, world.stateDb⟩,
             [.isFile (getBackupFilePath cfg blockHeight),
              .openReader (getBackupFilePath cfg blockHeight),
              .removeFile (getBackupFilePath cfg blockHeight)]) := by
  intro cfg world blockHeight w h1 h2 h3 h4
  simp [run, not_lt.mpr h1, h2, h3, h4, removeBackupFile, osRemove]
  rfl

/-- A sample WAL backup file at height 7 with a single batch and the
end-block bit set. -/
def sampleWal : WALFile := ⟨1, 7, [(0, [.put "a" "1"])]⟩

/-- A sample world holding only the height-7 backup file. -/
def sampleBackupWorld : RollbackWorld :=
  ⟨[(getBackupFilePath sampleCfg 7, sampleWal)],
   [("rc/current_db", [])], [("x", "y")]⟩

/-- Witness for C5: the height-7 backup with one batch yields (7, true),
removes the backup file and leaves both stores untouched. -/
theorem run_bad_batch_count_witness :
    run sampleCfg sampleBackupWorld 7 =
      .ok ((7, true),
           ⟨[], [("rc/current_db", [])], [("x", "y")]⟩,
           [.isFile (getBackupFilePath sampleCfg 7),
            .openReader (getBackupFilePath sampleCfg 7),
            .removeFile (getBackupFilePath sampleCfg 7)]) := by
  rw [run_bad_batch_count sampleCfg sampleBackupWorld 7 sampleWal
        (by decide) rfl rfl (by decide)]
  rfl

/-- The filesystem of the C2 failing input: only the iiss database exists. -/
def c2OnlyIissFs : DirFS := [("rc/iiss_db", [("k", "v")])]

/-- A filesystem where both the current and the iiss databases exist; the
iiss one holds the speculative block-production-info record for height 7. -/
def c2BothFs : DirFS :=
  [("rc/current_db", [("a", "b")]), ("rc/iiss_db", [("bpi/7", "x"), ("k", "v")])]

/-- A filesystem where only the current database exists. -/
def c2OnlyCurrentFs : DirFS :=
  [("rc/current_db", [("bpi/7", "x"), ("a", "b")])]

/-- C2 (code bug in the third decision-table row): with both databases
present the procedure leaves exactly one database, at the current path, with
the contents of the former iiss database minus the height-7
block-production-info record, and the iiss path absent — as claimed; with
only current present it only removes that record; with neither present it
raises the database-missing error — as claimed; but with only iiss present
the scan returns the empty string for the absent current database, so the
rename destination is the empty string and the procedure fails with ENOENT
instead of renaming iiss to the current path, contradicting the comment
(iiss_rc_db to current_rc_db) above that branch of the source. -/
theorem rollback_end_block_missing_current_bug :
    rollbackRcDbOnEndBlock sampleCfg c2BothFs 7 =
      .ok [("rc/current_db", [("k", "v")])] ∧
    rollbackRcDbOnEndBlock sampleCfg c2OnlyCurrentFs 7 =
      .ok [("rc/current_db", [("a", "b")])] ∧
    rollbackRcDbOnEndBlock sampleCfg [] 7 =
      .error (.databaseException "RC DB not found") ∧
    scanRcDb sampleCfg c2OnlyIissFs = ("", "", "rc/iiss_db") ∧
    rollbackRcDbOnEndBlock sampleCfg c2OnlyIissFs 7 =
      .error (.osError "ENOENT") :=
  ⟨rfl, rfl, rfl, rfl, rfl⟩

end IconService
